import Mathlib

set_option maxHeartbeats 1000000

/-!
Shallow embedding of `src/lambda_function.py`, a single AWS-Lambda handler
that validates a website URL plus pre-scraped metadata, scores the metadata,
and persists a project record, rejecting duplicates per user.

Python values flowing through the handler are dynamically typed JSON-like
data; they are embedded as the inductive `Value` below.  Fallible Python
code (expressions that can raise `TypeError` / `AttributeError`) is embedded
as `Except Unit`.  The DynamoDB table is embedded as an explicit list of
records threaded through the handler, together with two booleans modelling
whether the query / put calls raise.  The standard-library pieces the code
leans on (`urllib.parse.urlparse`, `uuid.uuid4().hex`, `datetime.isoformat`)
are modelled from their documented behaviour, since they are not part of
this repository.  Floats and byte strings do not occur in any claim and are
not modelled.
-/

/-- A dynamically typed (JSON-like) Python value. -/
inductive Value : Type where
  | vNull : Value
  | vBool : Bool → Value
  | vInt : Int → Value
  | vStr : String → Value
  | vList : List Value → Value
  | vDict : List (String × Value) → Value

/-- Python truthiness (`bool(v)`): `None`, `False`, `0`, `""`, `[]`, `{}`
are falsy, everything else is truthy. -/
def truthy : Value → Bool
  | .vNull => false
  | .vBool b => b
  | .vInt n => n != 0
  | .vStr s => s != ""
  | .vList xs => !xs.isEmpty
  | .vDict fs => !fs.isEmpty

/-- First binding of key `k` in an association list modelling a Python dict. -/
def dictFind? : List (String × Value) → String → Option Value
  | [], _ => none
  | (k2, v) :: rest, k => if k2 = k then some v else dictFind? rest k

/-- Python `d.get(k, dflt)`. -/
def dictGetD (fs : List (String × Value)) (k : String) (dflt : Value) : Value :=
  (dictFind? fs k).getD dflt

/-- Python `k in d` for a dict `d`. -/
def dictHasKey (fs : List (String × Value)) (k : String) : Bool :=
  (dictFind? fs k).isSome

mutual
/-- Python structural equality `==` on embedded values. -/
def valueBeq : Value → Value → Bool
  | .vNull, .vNull => true
  | .vBool a, .vBool b => a == b
  | .vInt a, .vInt b => a == b
  | .vStr a, .vStr b => a == b
  | .vList as, .vList bs => valueListBeq as bs
  | .vDict as, .vDict bs => valueDictBeq as bs
  | _, _ => false

def valueListBeq : List Value → List Value → Bool
  | [], [] => true
  | a :: as, b :: bs => valueBeq a b && valueListBeq as bs
  | _, _ => false

def valueDictBeq : List (String × Value) → List (String × Value) → Bool
  | [], [] => true
  | (k, a) :: as, (l, b) :: bs => k == l && valueBeq a b && valueDictBeq as bs
  | _, _ => false
end

/-- Characters allowed in a URL scheme by `urllib.parse`
(letters, digits, `+`, `-`, `.`). -/
def scheme_char (c : Char) : Bool :=
  c.isAlpha || c.isDigit || c = '+' || c = '-' || c = '.'

/-- Split a character list at its first `:` (text before, text after). -/
def splitColon : List Char → Option (List Char × List Char)
  | [] => none
  | ':' :: rest => some ([], rest)
  | c :: rest =>
    match splitColon rest with
    | none => none
    | some (a, b) => some (c :: a, b)

/-- The scheme-extraction step of `urllib.parse.urlsplit`: if the text up to
the first `:` is non-empty, starts with a letter and consists of scheme
characters, it is the (lowercased) scheme; otherwise the scheme is empty and
the URL is left intact. -/
def splitSchemeUrl (cs : List Char) : List Char × List Char :=
  match splitColon cs with
  | none => ([], cs)
  | some (before, after) =>
    match before with
    | [] => ([], cs)
    | c0 :: rest =>
      if c0.isAlpha && (c0 :: rest).all scheme_char then
        ((c0 :: rest).map Char.toLower, after)
      else ([], cs)

/-- The netloc-extraction step of `urllib.parse.urlsplit`: after the scheme,
a `//` introduces the netloc, which runs up to the next `/`, `?` or `#`. -/
def netlocOf : List Char → List Char
  | '/' :: '/' :: rest => rest.takeWhile fun c => !(c = '/' || c = '?' || c = '#')
  | _ => []

/-- The `urlsplit` bracket sanity check: a `[` without `]` in the netloc (or
vice versa) raises `ValueError`. -/
def bracketsBad (nl : List Char) : Bool :=
  (nl.contains '[') != (nl.contains ']')

/-- Modelled from the behaviour of `urllib.parse.urlparse` (not part of this
repository): tab / CR / LF are removed, then scheme and netloc are extracted;
an unbalanced bracket in the netloc raises. Only the scheme and netloc
components are modelled, because the code only reads those. -/
def urlparseSN (s : String) : Except Unit (List Char × List Char) :=
  let cs := s.data.filter fun c => !(c = '\t' || c = '\n' || c = '\r')
  let p := splitSchemeUrl cs
  let nl := netlocOf p.2
  if bracketsBad nl then .error () else .ok (p.1, nl)

/-- Embedding of `validate_url`: `all([result.scheme, result.netloc])` with a
bare `except` returning `False`. -/
def validate_url (url : String) : Bool :=
  match urlparseSN url with
  | .error _ => false
  | .ok (sch, nl) => !sch.isEmpty && !nl.isEmpty

/-- `validate_url` as called on a dynamically typed value: `urlparse` raises
on a non-string argument and the bare `except` turns that into `False`. -/
def validate_url_v : Value → Bool
  | .vStr s => validate_url s
  | _ => false

/-- The `required_fields` list of `validate_scraped_data`. -/
def required_fields : List String := ["url", "title", "content"]

/-- Embedding of `validate_scraped_data` on a dict argument:
`all(field in data for field in required_fields)`. -/
def validate_scraped_data (data : List (String × Value)) : Bool :=
  required_fields.all fun field => dictHasKey data field

/-- Substring test, modelling Python `needle in haystack` on strings. -/
def strHasSub (hay needle : List Char) : Bool :=
  match hay with
  | [] => needle.isEmpty
  | c :: t => needle.isPrefixOf (c :: t) || strHasSub t needle

/-- `validate_scraped_data` as called on a dynamically typed value: `in` is a
key test on dicts, a substring test on strings, a membership test on lists,
and a `TypeError` on anything else (which propagates to the handler). -/
def validate_scraped_data_v : Value → Except Unit Bool
  | .vDict fs => .ok (validate_scraped_data fs)
  | .vStr s => .ok (required_fields.all fun f => strHasSub s.data f.data)
  | .vList xs => .ok (required_fields.all fun f => xs.any fun x => valueBeq x (.vStr f))
  | _ => .error ()

/-- Python `v == n` for an int literal `n`: ints and bools compare by value,
every other type compares unequal (never raises). -/
def pyEqInt (v : Value) (n : Int) : Bool :=
  match v with
  | .vInt m => m == n
  | .vBool b => (if b then (1 : Int) else 0) == n
  | _ => false

/-- Python `v > n` for an int literal `n`: defined for ints and bools,
a `TypeError` for every other type. -/
def pyGtInt (v : Value) (n : Int) : Except Unit Bool :=
  match v with
  | .vInt m => .ok (decide (n < m))
  | .vBool b => .ok (decide (n < (if b then (1 : Int) else 0)))
  | _ => .error ()

/-- The frameworks probed by the health scorer. -/
def frameworks : List String := ["react", "vue", "angular"]

/-- The `any(framework_data.get(fw, False) for fw in [...])` step: `.get`
raises `AttributeError` when `framework_detection` is not a dict. -/
def frameworkAny (fd : Value) : Except Unit Bool :=
  match fd with
  | .vDict fs => .ok (frameworks.any fun fw => truthy (dictGetD fs fw (.vBool false)))
  | _ => .error ()

/-- Embedding of `calculate_health_score`.  The additive score is built in
source order; the comparisons on `content_length` / `links_count` and the
`framework_detection` access can raise, hence the `Except`.  The source
short-circuits the `> 500` / `> 5` comparison when the first tier already
matched; since the second comparison raises under exactly the same condition
as the first (the type of the compared value), sequencing both is
observationally equal and is used here. -/
def calculate_health_score (scraped_data : List (String × Value)) : Except Unit Int :=
  let score : Int := 0
  let score := if pyEqInt (dictGetD scraped_data "status_code" (.vInt 0)) 200 then score + 20 else score
  let cl := dictGetD scraped_data "content_length" (.vInt 0)
  (pyGtInt cl 1000).bind fun b1 =>
  (pyGtInt cl 500).bind fun b2 =>
  let score := if b1 then score + 20 else if b2 then score + 10 else score
  let score := if truthy (dictGetD scraped_data "title" .vNull) then score + 15 else score
  let score := if truthy (dictGetD scraped_data "description" .vNull) then score + 10 else score
  let lc := dictGetD scraped_data "links_count" (.vInt 0)
  (pyGtInt lc 10).bind fun c1 =>
  (pyGtInt lc 5).bind fun c2 =>
  let score := if c1 then score + 15 else if c2 then score + 10 else score
  let score := if truthy (dictGetD scraped_data "has_ssl" (.vBool false)) then score + 10 else score
  (frameworkAny (dictGetD scraped_data "framework_detection" (.vDict []))).map fun fw =>
  let score := if fw then score + 10 else score
  min score 100

/-- `calculate_health_score` as called on a dynamically typed value: the
first `.get` raises `AttributeError` when the argument is not a dict. -/
def calculate_health_score_v : Value → Except Unit Int
  | .vDict fs => calculate_health_score fs
  | _ => .error ()

/-- One lowercase hex digit. -/
def hexDigitCh (n : Nat) : Char :=
  match n with
  | 0 => '0' | 1 => '1' | 2 => '2' | 3 => '3' | 4 => '4'
  | 5 => '5' | 6 => '6' | 7 => '7' | 8 => '8' | 9 => '9'
  | 10 => 'a' | 11 => 'b' | 12 => 'c' | 13 => 'd' | 14 => 'e'
  | _ => 'f'

/-- Modelled from the behaviour of `uuid.uuid4().hex` (not part of this
repository): a 32-character lowercase hexadecimal string, here generated
deterministically from a seed standing in for the randomness. -/
def uuid4hex (seed : Nat) : Nat → List Char
  | 0 => []
  | len + 1 => hexDigitCh (seed % 16) :: uuid4hex (seed / 16) len

/-- Lowercase hexadecimal characters `0-9a-f`. -/
def isLowerHex (c : Char) : Bool :=
  c.isDigit || (decide ('a' ≤ c) && decide (c ≤ 'f'))

/-- Embedding of `generate_project_id`:
`f"project_{uuid.uuid4().hex[:12]}"`. -/
def generate_project_id (seed : Nat) : String :=
  String.mk ("project_".data ++ (uuid4hex seed 32).take 12)

/-- One decimal digit. -/
def decDigitCh (n : Nat) : Char :=
  match n with
  | 0 => '0' | 1 => '1' | 2 => '2' | 3 => '3' | 4 => '4'
  | 5 => '5' | 6 => '6' | 7 => '7' | 8 => '8' | _ => '9'

/-- Two-digit zero-padded decimal rendering. -/
def pad2 (n : Nat) : List Char :=
  [decDigitCh (n / 10 % 10), decDigitCh (n % 10)]

/-- Four-digit zero-padded decimal rendering. -/
def pad4 (n : Nat) : List Char :=
  [decDigitCh (n / 1000 % 10), decDigitCh (n / 100 % 10),
   decDigitCh (n / 10 % 10), decDigitCh (n % 10)]

/-- Six-digit zero-padded decimal rendering. -/
def pad6 (n : Nat) : List Char :=
  [decDigitCh (n / 100000 % 10), decDigitCh (n / 10000 % 10),
   decDigitCh (n / 1000 % 10), decDigitCh (n / 100 % 10),
   decDigitCh (n / 10 % 10), decDigitCh (n % 10)]

/-- A naive UTC datetime as produced by `datetime.utcnow()`.  The Python
type maintains `year ≤ 9999`, `month ≤ 12`, and so on; the rendering below
agrees with Python on that whole reachable domain. -/
structure PyDateTime where
  year : Nat
  month : Nat
  day : Nat
  hour : Nat
  minute : Nat
  second : Nat
  microsecond : Nat

/-- Modelled from the behaviour of `datetime.isoformat()` (not part of this
repository): `YYYY-MM-DDTHH:MM:SS`, with `.ffffff` appended exactly when the
microsecond field is non-zero. -/
def isoformat (dt : PyDateTime) : List Char :=
  pad4 dt.year ++ '-' :: pad2 dt.month ++ '-' :: pad2 dt.day ++
  'T' :: pad2 dt.hour ++ ':' :: pad2 dt.minute ++ ':' :: pad2 dt.second ++
  (if dt.microsecond = 0 then [] else '.' :: pad6 dt.microsecond)

/-- The `current_time` stamp of `create_project`:
`datetime.utcnow().isoformat() + "Z"`. -/
def utcnowIsoZ (dt : PyDateTime) : String :=
  String.mk (isoformat dt ++ ['Z'])

/-- The project record assembled by `create_project` (the `project_item`
dict); field names and order follow the source. -/
structure ProjectItem where
  user_id : Value
  project_id : String
  website_url : Value
  category : Value
  description : Value
  title : Value
  health_score : Int
  last_checked : String
  status : String
  created_at : String
  updated_at : String
  scraped_data : Value

/-- Python `scraped_data.get("title", website_url)` on a dynamically typed
value: `.get` raises `AttributeError` when the receiver is not a dict. -/
def vGetD (v : Value) (k : String) (dflt : Value) : Except Unit Value :=
  match v with
  | .vDict fs => .ok (dictGetD fs k dflt)
  | _ => .error ()

/-- Embedding of `create_project`.  The DynamoDB table is passed in as a
list of records and returned with the new record appended (`put_item`); the
`putFails` flag models `put_item` raising, in which case nothing is stored
and the exception propagates.  The datetime and the uuid seed stand for the
ambient clock and randomness. -/
def create_project (user_id website_url category description scraped_data : Value)
    (dt : PyDateTime) (seed : Nat) (store : List ProjectItem) (putFails : Bool) :
    Except Unit (ProjectItem × List ProjectItem) :=
  let project_id := generate_project_id seed
  let current_time := utcnowIsoZ dt
  (calculate_health_score_v scraped_data).bind fun health_score =>
  (vGetD scraped_data "title" website_url).bind fun title =>
  let project_item : ProjectItem :=
    ⟨user_id, project_id, website_url, category, description, title,
     health_score, current_time, "active", current_time, current_time, scraped_data⟩
  if putFails then .error () else .ok (project_item, store ++ [project_item])

/-- Embedding of `check_duplicate_project`: query all records for `user_id`,
filter on `website_url`, return whether any match; any exception from the
query (modelled by `queryFails`) is swallowed and the function returns
`False`. -/
def check_duplicate_project (user_id website_url : Value)
    (store : List ProjectItem) (queryFails : Bool) : Bool :=
  if queryFails then false
  else decide (0 < (store.filter fun p =>
    valueBeq p.user_id user_id && valueBeq p.website_url website_url).length)

/-- The fixed headers of `create_response` in API-gateway mode. -/
def corsHeaders : List (String × String) :=
  [("Content-Type", "application/json"),
   ("Access-Control-Allow-Origin", "*"),
   ("Access-Control-Allow-Headers", "Content-Type"),
   ("Access-Control-Allow-Methods", "POST, OPTIONS")]

/-- An API-gateway response: status code, fixed headers, and the payload
dict (kept structured rather than JSON-serialised). -/
structure GwResponse where
  statusCode : Nat
  headers : List (String × String)
  payload : List (String × Value)

/-- Embedding of `create_response` in API-gateway mode (`is_api_gateway`
true): wraps the payload with the status code and the fixed headers. -/
def create_response (data : List (String × Value)) (status_code : Nat) : GwResponse :=
  ⟨status_code, corsHeaders, data⟩

/-- The ambient state an invocation runs against: the table contents, the
failure behaviour of the two store calls, the clock, and the uuid seed. -/
structure World where
  store : List ProjectItem
  queryFails : Bool
  putFails : Bool
  dt : PyDateTime
  seed : Nat

/-- The `project_item` record viewed as the Python dict that the success
response embeds as its `data` field, in source key order. -/
def projectToDict (p : ProjectItem) : List (String × Value) :=
  [("user_id", p.user_id), ("project_id", .vStr p.project_id),
   ("website_url", p.website_url), ("category", p.category),
   ("description", p.description), ("title", p.title),
   ("health_score", .vInt p.health_score), ("last_checked", .vStr p.last_checked),
   ("status", .vStr p.status), ("created_at", .vStr p.created_at),
   ("updated_at", .vStr p.updated_at), ("scraped_data", p.scraped_data)]

/-- The payload of the generic 500 response.  The `message` field carries
`str(e)` in the source; the fault text itself is not modelled. -/
def internalErrorPayload : List (String × Value) :=
  [("success", .vBool false), ("error", .vStr "Internal server error"),
   ("message", .vStr "")]

/-- Embedding of `lambda_handler` in API-gateway mode, after the request
body has been JSON-decoded into the dict `body` (the JSON text itself is not
modelled).  Returns the response together with the table contents after the
invocation. -/
def lambda_handler (body : List (String × Value)) (w : World) :
    GwResponse × List ProjectItem :=
  let website_url := dictGetD body "websiteUrl" .vNull
  let category := dictGetD body "category" (.vStr "General")
  let description := dictGetD body "description" (.vStr "")
  let scraped_data := dictGetD body "scrapedData" .vNull
  let user_id := dictGetD body "userId" (.vStr "default_user")
  if !truthy website_url then
    (create_response [("success", .vBool false), ("error", .vStr "websiteUrl is required")] 400, w.store)
  else if !truthy scraped_data then
    (create_response [("success", .vBool false), ("error", .vStr "scrapedData is required")] 400, w.store)
  else if !validate_url_v website_url then
    (create_response [("success", .vBool false), ("error", .vStr "Invalid website URL format")] 400, w.store)
  else
    match validate_scraped_data_v scraped_data with
    | .error _ => (create_response internalErrorPayload 500, w.store)
    | .ok shape_ok =>
      if !shape_ok then
        (create_response [("success", .vBool false), ("error", .vStr "Invalid scraped data structure")] 400, w.store)
      else if check_duplicate_project user_id website_url w.store w.queryFails then
        (create_response [("success", .vBool false), ("error", .vStr "Project already exists for this URL")] 409, w.store)
      else
        match create_project user_id website_url category description scraped_data w.dt w.seed w.store w.putFails with
        | .error _ => (create_response internalErrorPayload 500, w.store)
        | .ok (project, store2) =>
          (create_response
            [("success", .vBool true),
             ("data", .vDict (projectToDict project)),
             ("message", .vStr "Project created successfully")] 201, store2)

/-! ### Basic lemmas about the modelled library helpers -/

theorem decDigitCh_isDigit (n : Nat) : (decDigitCh n).isDigit = true := by
  rcases n with _|_|_|_|_|_|_|_|_|n <;> rfl

theorem hexDigitCh_isLowerHex (n : Nat) : isLowerHex (hexDigitCh n) = true := by
  rcases n with _|_|_|_|_|_|_|_|_|_|_|_|_|_|_|n <;> rfl

theorem uuid4hex_length (seed len : Nat) : (uuid4hex seed len).length = len := by
  induction len generalizing seed with
  | zero => rfl
  | succ k ih => simp [uuid4hex, ih]

theorem uuid4hex_isLowerHex (seed len : Nat) :
    (uuid4hex seed len).all isLowerHex = true := by
  induction len generalizing seed with
  | zero => rfl
  | succ k ih => simp [uuid4hex, List.all_cons, hexDigitCh_isLowerHex, ih]

/-- Fractional-seconds-and-suffix part of the ISO-8601 shape check: either a
bare `Z`, or `.` followed by six digits and `Z`. -/
def checkFracZ : List Char → Bool
  | ['Z'] => true
  | '.' :: f1 :: f2 :: f3 :: f4 :: f5 :: f6 :: ['Z'] =>
      [f1, f2, f3, f4, f5, f6].all Char.isDigit
  | _ => false

/-- Shape check for an ISO-8601 UTC timestamp with `Z` suffix:
`YYYY-MM-DDTHH:MM:SS` optionally followed by `.ffffff`, then `Z`. -/
def checkIsoZChars : List Char → Bool
  | y1 :: y2 :: y3 :: y4 :: '-' :: m1 :: m2 :: '-' :: d1 :: d2 ::
    'T' :: h1 :: h2 :: ':' :: n1 :: n2 :: ':' :: s1 :: s2 :: rest =>
      ([y1, y2, y3, y4, m1, m2, d1, d2, h1, h2, n1, n2, s1, s2].all Char.isDigit)
        && checkFracZ rest
  | _ => false

/-- Shape check on strings. -/
def checkIsoZ (s : String) : Bool := checkIsoZChars s.data

theorem utcnowIsoZ_checkIsoZ (dt : PyDateTime) : checkIsoZ (utcnowIsoZ dt) = true := by
  unfold checkIsoZ utcnowIsoZ isoformat pad4 pad2 pad6
  by_cases hm : dt.microsecond = 0 <;>
    simp [hm, checkIsoZChars, checkFracZ, decDigitCh_isDigit]

theorem utcnowIsoZ_endsZ (dt : PyDateTime) :
    (utcnowIsoZ dt).data.getLast? = some 'Z' := by
  unfold utcnowIsoZ
  simp

/-! ### Characterisation of the health scorer -/

/-- Integer coercion used by the Python `int` comparisons: ints are
themselves, bools are 0 / 1. -/
def pyToInt : Value → Int
  | .vInt m => m
  | .vBool b => if b then 1 else 0
  | _ => 0

/-- Values on which Python `>` against an int literal is defined. -/
def numLike : Value → Bool
  | .vInt _ => true
  | .vBool _ => true
  | _ => false

/-- Dict test. -/
def isVDict : Value → Bool
  | .vDict _ => true
  | _ => false

/-- Contribution of the `status_code == 200` factor. -/
def statusFactor (sd : List (String × Value)) : Int :=
  if pyEqInt (dictGetD sd "status_code" (.vInt 0)) 200 then 20 else 0

/-- Contribution of the `content_length` tiers. -/
def contentFactor (sd : List (String × Value)) : Int :=
  let m := pyToInt (dictGetD sd "content_length" (.vInt 0))
  if 1000 < m then 20 else if 500 < m then 10 else 0

/-- Contribution of a non-empty `title`. -/
def titleFactor (sd : List (String × Value)) : Int :=
  if truthy (dictGetD sd "title" .vNull) then 15 else 0

/-- Contribution of a non-empty `description`. -/
def descFactor (sd : List (String × Value)) : Int :=
  if truthy (dictGetD sd "description" .vNull) then 10 else 0

/-- Contribution of the `links_count` tiers. -/
def linksFactor (sd : List (String × Value)) : Int :=
  let m := pyToInt (dictGetD sd "links_count" (.vInt 0))
  if 10 < m then 15 else if 5 < m then 10 else 0

/-- Contribution of a truthy `has_ssl`. -/
def sslFactor (sd : List (String × Value)) : Int :=
  if truthy (dictGetD sd "has_ssl" (.vBool false)) then 10 else 0

/-- Contribution of the framework-detection flags. -/
def fwFactor (sd : List (String × Value)) : Int :=
  match dictGetD sd "framework_detection" (.vDict []) with
  | .vDict fs =>
      if frameworks.any (fun fw => truthy (dictGetD fs fw (.vBool false))) then 10 else 0
  | _ => 0

/-- Sum of the seven factor contributions of the health scorer. -/
def totalScore (sd : List (String × Value)) : Int :=
  statusFactor sd + contentFactor sd + titleFactor sd + descFactor sd +
  linksFactor sd + sslFactor sd + fwFactor sd

/-- The records on which `calculate_health_score` does not raise: the two
int-compared fields are numbers (or bools) when present, and
`framework_detection` is a dict when present. -/
def wellTyped (sd : List (String × Value)) : Bool :=
  numLike (dictGetD sd "content_length" (.vInt 0)) &&
  numLike (dictGetD sd "links_count" (.vInt 0)) &&
  isVDict (dictGetD sd "framework_detection" (.vDict []))

/-- The framework flag, as a total function (false on non-dicts). -/
def fwBoolOf : Value → Bool
  | .vDict fs => frameworks.any fun fw => truthy (dictGetD fs fw (.vBool false))
  | _ => false

theorem pyGtInt_eq (v : Value) (n : Int) :
    pyGtInt v n = if numLike v then .ok (decide (n < pyToInt v)) else .error () := by
  cases v <;> rfl

theorem frameworkAny_eq (fd : Value) :
    frameworkAny fd = if isVDict fd then .ok (fwBoolOf fd) else .error () := by
  cases fd <;> rfl

theorem fwFactor_eq (sd : List (String × Value)) :
    fwFactor sd =
      if fwBoolOf (dictGetD sd "framework_detection" (.vDict [])) then 10 else 0 := by
  unfold fwFactor fwBoolOf
  cases dictGetD sd "framework_detection" (.vDict []) <;> simp

theorem accum_one {p : Prop} [Decidable p] (x k : Int) :
    (if p then x + k else x) = x + (if p then k else 0) := by
  by_cases h : p <;> simp [h]

theorem accum_two {p : Prop} [Decidable p] (x k1 y : Int) :
    (if p then x + k1 else x + y) = x + (if p then k1 else y) := by
  by_cases h : p <;> simp [h]

theorem calculate_health_score_eq (sd : List (String × Value)) :
    calculate_health_score sd =
      if wellTyped sd then .ok (min (totalScore sd) 100) else .error () := by
  unfold calculate_health_score wellTyped
  simp only [pyGtInt_eq, frameworkAny_eq]
  by_cases h1 : numLike (dictGetD sd "content_length" (.vInt 0)) = true
  · by_cases h2 : numLike (dictGetD sd "links_count" (.vInt 0)) = true
    · by_cases h3 : isVDict (dictGetD sd "framework_detection" (.vDict [])) = true
      · simp only [h1, h2, h3, ite_true, eq_self_iff_true, Bool.and_self, Bool.true_and,
          Except.bind, Except.map, Except.ok.injEq, decide_eq_true_eq]
        simp only [totalScore, statusFactor, contentFactor, titleFactor, descFactor,
          linksFactor, sslFactor, fwFactor_eq]
        simp only [accum_one, accum_two, zero_add]
      · simp [h1, h2, h3, Except.bind, Except.map]
    · simp [h1, h2, Except.bind, Except.map]
  · simp [h1, Except.bind, Except.map]

theorem statusFactor_bounds (sd : List (String × Value)) :
    0 ≤ statusFactor sd ∧ statusFactor sd ≤ 20 := by
  unfold statusFactor; split_ifs <;> omega

theorem contentFactor_bounds (sd : List (String × Value)) :
    0 ≤ contentFactor sd ∧ contentFactor sd ≤ 20 := by
  simp only [contentFactor]; split_ifs <;> omega

theorem titleFactor_bounds (sd : List (String × Value)) :
    0 ≤ titleFactor sd ∧ titleFactor sd ≤ 15 := by
  unfold titleFactor; split_ifs <;> omega

theorem descFactor_bounds (sd : List (String × Value)) :
    0 ≤ descFactor sd ∧ descFactor sd ≤ 10 := by
  unfold descFactor; split_ifs <;> omega

theorem linksFactor_bounds (sd : List (String × Value)) :
    0 ≤ linksFactor sd ∧ linksFactor sd ≤ 15 := by
  simp only [linksFactor]; split_ifs <;> omega

theorem sslFactor_bounds (sd : List (String × Value)) :
    0 ≤ sslFactor sd ∧ sslFactor sd ≤ 10 := by
  unfold sslFactor; split_ifs <;> omega

theorem fwFactor_bounds (sd : List (String × Value)) :
    0 ≤ fwFactor sd ∧ fwFactor sd ≤ 10 := by
  rw [fwFactor_eq]; split_ifs <;> omega

theorem totalScore_bounds (sd : List (String × Value)) :
    0 ≤ totalScore sd ∧ totalScore sd ≤ 100 := by
  have h1 := statusFactor_bounds sd
  have h2 := contentFactor_bounds sd
  have h3 := titleFactor_bounds sd
  have h4 := descFactor_bounds sd
  have h5 := linksFactor_bounds sd
  have h6 := sslFactor_bounds sd
  have h7 := fwFactor_bounds sd
  unfold totalScore
  omega

theorem chs_ok_inv {sd : List (String × Value)} {s : Int}
    (h : calculate_health_score sd = .ok s) :
    wellTyped sd = true ∧ s = min (totalScore sd) 100 := by
  rw [calculate_health_score_eq] at h
  by_cases hwt : wellTyped sd = true
  · rw [if_pos hwt] at h
    exact ⟨hwt, (Except.ok.injEq _ _).mp h.symm⟩
  · rw [if_neg hwt] at h
    exact absurd h (by simp)

/-- Two records that agree on every key other than `k` (as seen through
`d.get`). -/
def sameExcept (d d2 : List (String × Value)) (k : String) : Prop :=
  ∀ k2, k2 ≠ k → ∀ dflt, dictGetD d2 k2 dflt = dictGetD d k2 dflt

theorem statusFactor_congr {d d2 : List (String × Value)} {k : String}
    (h : sameExcept d d2 k) (hk : k ≠ "status_code") :
    statusFactor d2 = statusFactor d := by
  unfold statusFactor; rw [h _ (Ne.symm hk)]

theorem contentFactor_congr {d d2 : List (String × Value)} {k : String}
    (h : sameExcept d d2 k) (hk : k ≠ "content_length") :
    contentFactor d2 = contentFactor d := by
  unfold contentFactor; rw [h _ (Ne.symm hk)]

theorem titleFactor_congr {d d2 : List (String × Value)} {k : String}
    (h : sameExcept d d2 k) (hk : k ≠ "title") :
    titleFactor d2 = titleFactor d := by
  unfold titleFactor; rw [h _ (Ne.symm hk)]

theorem descFactor_congr {d d2 : List (String × Value)} {k : String}
    (h : sameExcept d d2 k) (hk : k ≠ "description") :
    descFactor d2 = descFactor d := by
  unfold descFactor; rw [h _ (Ne.symm hk)]

theorem linksFactor_congr {d d2 : List (String × Value)} {k : String}
    (h : sameExcept d d2 k) (hk : k ≠ "links_count") :
    linksFactor d2 = linksFactor d := by
  unfold linksFactor; rw [h _ (Ne.symm hk)]

theorem sslFactor_congr {d d2 : List (String × Value)} {k : String}
    (h : sameExcept d d2 k) (hk : k ≠ "has_ssl") :
    sslFactor d2 = sslFactor d := by
  unfold sslFactor; rw [h _ (Ne.symm hk)]

theorem fwFactor_congr {d d2 : List (String × Value)} {k : String}
    (h : sameExcept d d2 k) (hk : k ≠ "framework_detection") :
    fwFactor d2 = fwFactor d := by
  rw [fwFactor_eq, fwFactor_eq, h _ (Ne.symm hk)]

theorem min100_mono {a b : Int} (h : a ≤ b) : min a 100 ≤ min b 100 :=
  min_le_min h le_rfl

/-- Claim C1 counterexample: a record whose `content_length` is a string is
a mapping of string keys to values with a subset of the recognized keys
present, yet `calculate_health_score` raises a `TypeError` (embedded as
`.error ()`) instead of returning an integer in `[0, 100]`. -/
theorem health_score_range_cex :
    calculate_health_score [("content_length", Value.vStr "broken")] = .error () := rfl

/-- Claim C1 (amended): for every scraped-data record whose
`content_length` and `links_count` are numbers (or bools) when present and
whose `framework_detection` is a dict when present, `calculate_health_score`
returns exactly `min` of the sum of the factor contributions and 100, an
integer in `[0, 100]`; a missing key contributes 0 (the factor functions
read each key through a `get` with the source defaults). -/
theorem health_score_range (sd : List (String × Value)) (h : wellTyped sd = true) :
    calculate_health_score sd = .ok (min (totalScore sd) 100) ∧
    0 ≤ min (totalScore sd) 100 ∧ min (totalScore sd) 100 ≤ 100 :=
  ⟨by rw [calculate_health_score_eq, if_pos h],
   le_min (totalScore_bounds sd).1 (by norm_num),
   min_le_right _ _⟩

/-- Witness for C1 at a concrete record. -/
theorem health_score_range_witness :
    wellTyped [("title", Value.vStr "t")] = true ∧
    (calculate_health_score [("title", Value.vStr "t")] =
        .ok (min (totalScore [("title", Value.vStr "t")]) 100) ∧
      0 ≤ min (totalScore [("title", Value.vStr "t")]) 100 ∧
      min (totalScore [("title", Value.vStr "t")]) 100 ≤ 100) :=
  ⟨rfl, health_score_range _ rfl⟩

/-- Claim C2: the health score is monotonically non-decreasing in each
individual contributing factor held independently.  Each conjunct varies one
factor: raising `content_length`, raising `links_count`, setting
`status_code` to 200, making `title` truthy, making `description` truthy,
making `has_ssl` truthy, or making a `framework_detection` flag for
react / vue / angular truthy, while every other key is unchanged
(`sameExcept`); whenever both records have a score, the score never
decreases. -/
theorem health_score_monotone (d d2 : List (String × Value)) :
    (∀ m2 s s2, sameExcept d d2 "content_length" →
      dictGetD d2 "content_length" (.vInt 0) = .vInt m2 →
      pyToInt (dictGetD d "content_length" (.vInt 0)) ≤ m2 →
      calculate_health_score d = .ok s → calculate_health_score d2 = .ok s2 → s ≤ s2) ∧
    (∀ m2 s s2, sameExcept d d2 "links_count" →
      dictGetD d2 "links_count" (.vInt 0) = .vInt m2 →
      pyToInt (dictGetD d "links_count" (.vInt 0)) ≤ m2 →
      calculate_health_score d = .ok s → calculate_health_score d2 = .ok s2 → s ≤ s2) ∧
    (∀ s s2, sameExcept d d2 "status_code" →
      dictGetD d2 "status_code" (.vInt 0) = .vInt 200 →
      calculate_health_score d = .ok s → calculate_health_score d2 = .ok s2 → s ≤ s2) ∧
    (∀ s s2, sameExcept d d2 "title" →
      truthy (dictGetD d2 "title" .vNull) = true →
      calculate_health_score d = .ok s → calculate_health_score d2 = .ok s2 → s ≤ s2) ∧
    (∀ s s2, sameExcept d d2 "description" →
      truthy (dictGetD d2 "description" .vNull) = true →
      calculate_health_score d = .ok s → calculate_health_score d2 = .ok s2 → s ≤ s2) ∧
    (∀ s s2, sameExcept d d2 "has_ssl" →
      truthy (dictGetD d2 "has_ssl" (.vBool false)) = true →
      calculate_health_score d = .ok s → calculate_health_score d2 = .ok s2 → s ≤ s2) ∧
    (∀ s s2 fs2, sameExcept d d2 "framework_detection" →
      dictGetD d2 "framework_detection" (.vDict []) = .vDict fs2 →
      (frameworks.any fun fw => truthy (dictGetD fs2 fw (.vBool false))) = true →
      calculate_health_score d = .ok s → calculate_health_score d2 = .ok s2 → s ≤ s2) := by
  refine ⟨?_, ?_, ?_, ?_, ?_, ?_, ?_⟩
  · intro m2 s s2 hsame hget hle h1 h2
    obtain ⟨hwt1, hs1⟩ := chs_ok_inv h1
    obtain ⟨hwt2, hs2⟩ := chs_ok_inv h2
    subst hs1; subst hs2
    apply min100_mono
    have e1 := statusFactor_congr hsame (by decide)
    have e3 := titleFactor_congr hsame (by decide)
    have e4 := descFactor_congr hsame (by decide)
    have e5 := linksFactor_congr hsame (by decide)
    have e6 := sslFactor_congr hsame (by decide)
    have e7 := fwFactor_congr hsame (by decide)
    have hc : contentFactor d ≤ contentFactor d2 := by
      have hm2 : pyToInt (dictGetD d2 "content_length" (.vInt 0)) = m2 := by
        rw [hget]; rfl
      simp only [contentFactor, hm2]
      split_ifs <;> omega
    simp only [totalScore, e1, e3, e4, e5, e6, e7]
    omega
  · intro m2 s s2 hsame hget hle h1 h2
    obtain ⟨hwt1, hs1⟩ := chs_ok_inv h1
    obtain ⟨hwt2, hs2⟩ := chs_ok_inv h2
    subst hs1; subst hs2
    apply min100_mono
    have e1 := statusFactor_congr hsame (by decide)
    have e2 := contentFactor_congr hsame (by decide)
    have e3 := titleFactor_congr hsame (by decide)
    have e4 := descFactor_congr hsame (by decide)
    have e6 := sslFactor_congr hsame (by decide)
    have e7 := fwFactor_congr hsame (by decide)
    have hc : linksFactor d ≤ linksFactor d2 := by
      have hm2 : pyToInt (dictGetD d2 "links_count" (.vInt 0)) = m2 := by
        rw [hget]; rfl
      simp only [linksFactor, hm2]
      split_ifs <;> omega
    simp only [totalScore, e1, e2, e3, e4, e6, e7]
    omega
  · intro s s2 hsame hget h1 h2
    obtain ⟨hwt1, hs1⟩ := chs_ok_inv h1
    obtain ⟨hwt2, hs2⟩ := chs_ok_inv h2
    subst hs1; subst hs2
    apply min100_mono
    have e2 := contentFactor_congr hsame (by decide)
    have e3 := titleFactor_congr hsame (by decide)
    have e4 := descFactor_congr hsame (by decide)
    have e5 := linksFactor_congr hsame (by decide)
    have e6 := sslFactor_congr hsame (by decide)
    have e7 := fwFactor_congr hsame (by decide)
    have hst2 : statusFactor d2 = 20 := by simp [statusFactor, hget, pyEqInt]
    have hst1 := statusFactor_bounds d
    simp only [totalScore, e2, e3, e4, e5, e6, e7, hst2]
    omega
  · intro s s2 hsame hget h1 h2
    obtain ⟨hwt1, hs1⟩ := chs_ok_inv h1
    obtain ⟨hwt2, hs2⟩ := chs_ok_inv h2
    subst hs1; subst hs2
    apply min100_mono
    have e1 := statusFactor_congr hsame (by decide)
    have e2 := contentFactor_congr hsame (by decide)
    have e4 := descFactor_congr hsame (by decide)
    have e5 := linksFactor_congr hsame (by decide)
    have e6 := sslFactor_congr hsame (by decide)
    have e7 := fwFactor_congr hsame (by decide)
    have ht2 : titleFactor d2 = 15 := by simp [titleFactor, hget]
    have ht1 := titleFactor_bounds d
    simp only [totalScore, e1, e2, e4, e5, e6, e7, ht2]
    omega
  · intro s s2 hsame hget h1 h2
    obtain ⟨hwt1, hs1⟩ := chs_ok_inv h1
    obtain ⟨hwt2, hs2⟩ := chs_ok_inv h2
    subst hs1; subst hs2
    apply min100_mono
    have e1 := statusFactor_congr hsame (by decide)
    have e2 := contentFactor_congr hsame (by decide)
    have e3 := titleFactor_congr hsame (by decide)
    have e5 := linksFactor_congr hsame (by decide)
    have e6 := sslFactor_congr hsame (by decide)
    have e7 := fwFactor_congr hsame (by decide)
    have hd2 : descFactor d2 = 10 := by simp [descFactor, hget]
    have hd1 := descFactor_bounds d
    simp only [totalScore, e1, e2, e3, e5, e6, e7, hd2]
    omega
  · intro s s2 hsame hget h1 h2
    obtain ⟨hwt1, hs1⟩ := chs_ok_inv h1
    obtain ⟨hwt2, hs2⟩ := chs_ok_inv h2
    subst hs1; subst hs2
    apply min100_mono
    have e1 := statusFactor_congr hsame (by decide)
    have e2 := contentFactor_congr hsame (by decide)
    have e3 := titleFactor_congr hsame (by decide)
    have e4 := descFactor_congr hsame (by decide)
    have e5 := linksFactor_congr hsame (by decide)
    have e7 := fwFactor_congr hsame (by decide)
    have hss2 : sslFactor d2 = 10 := by simp [sslFactor, hget]
    have hss1 := sslFactor_bounds d
    simp only [totalScore, e1, e2, e3, e4, e5, e7, hss2]
    omega
  · intro s s2 fs2 hsame hget hany h1 h2
    obtain ⟨hwt1, hs1⟩ := chs_ok_inv h1
    obtain ⟨hwt2, hs2⟩ := chs_ok_inv h2
    subst hs1; subst hs2
    apply min100_mono
    have e1 := statusFactor_congr hsame (by decide)
    have e2 := contentFactor_congr hsame (by decide)
    have e3 := titleFactor_congr hsame (by decide)
    have e4 := descFactor_congr hsame (by decide)
    have e5 := linksFactor_congr hsame (by decide)
    have e6 := sslFactor_congr hsame (by decide)
    have hf2 : fwFactor d2 = 10 := by
      rw [fwFactor_eq, hget]
      simp [fwBoolOf, hany]
    have hf1 := fwFactor_bounds d
    simp only [totalScore, e1, e2, e3, e4, e5, e6, hf2]
    omega

/-- Concrete record for the monotonicity witness, before the improvement. -/
def monoRecA : List (String × Value) := [("content_length", .vInt 600)]

/-- Concrete record for the monotonicity witness, after the improvement. -/
def monoRecB : List (String × Value) := [("content_length", .vInt 2000)]

/-- Witness for C2: raising `content_length` from 600 to 2000 raises the
score from 10 to 20. -/
theorem health_score_monotone_witness :
    calculate_health_score monoRecA = .ok 10 ∧
    calculate_health_score monoRecB = .ok 20 ∧ (10 : Int) ≤ 20 := by
  refine ⟨rfl, rfl, ?_⟩
  refine (health_score_monotone monoRecA monoRecB).1 2000 10 20 ?_ rfl (by decide) rfl rfl
  intro k2 hk dflt
  simp only [monoRecA, monoRecB, dictGetD, dictFind?]
  rw [if_neg fun h => hk h.symm, if_neg fun h => hk h.symm]

/-! ### Inversion lemmas for the store operations and the handler -/

theorem create_project_ok_inv {u wu cat desc sdv : Value} {dt : PyDateTime}
    {seed : Nat} {store : List ProjectItem} {pf : Bool}
    {item : ProjectItem} {store2 : List ProjectItem}
    (h : create_project u wu cat desc sdv dt seed store pf = .ok (item, store2)) :
    item.project_id = generate_project_id seed ∧
    item.created_at = utcnowIsoZ dt ∧ item.updated_at = utcnowIsoZ dt ∧
    item.last_checked = utcnowIsoZ dt ∧ store2 = store ++ [item] ∧
    (∃ hs, calculate_health_score_v sdv = .ok hs ∧ item.health_score = hs) ∧
    (∃ tt, vGetD sdv "title" wu = .ok tt ∧ item.title = tt) ∧
    item.user_id = u ∧ item.website_url = wu ∧ item.category = cat ∧
    item.description = desc ∧ item.status = "active" ∧ item.scraped_data = sdv := by
  unfold create_project at h
  rcases hhs : calculate_health_score_v sdv with uu | hs
  · rw [hhs] at h
    simp only [Except.bind] at h
    exact absurd h (by simp)
  rw [hhs] at h
  simp only [Except.bind] at h
  rcases htt : vGetD sdv "title" wu with uu | tt
  · rw [htt] at h
    simp only [Except.bind] at h
    exact absurd h (by simp)
  rw [htt] at h
  simp only [Except.bind] at h
  cases pf
  · simp only [Bool.false_eq_true, if_false, ite_false, Except.ok.injEq, Prod.mk.injEq] at h
    obtain ⟨hitem, hstore⟩ := h
    subst hitem
    exact ⟨rfl, rfl, rfl, rfl, hstore.symm, ⟨hs, rfl, rfl⟩, ⟨tt, rfl, rfl⟩,
      rfl, rfl, rfl, rfl, rfl, rfl⟩
  · simp at h

theorem lambda_handler_spec (body : List (String × Value)) (w : World) :
    lambda_handler body w =
      (create_response [("success", .vBool false), ("error", .vStr "websiteUrl is required")] 400, w.store) ∨
    lambda_handler body w =
      (create_response [("success", .vBool false), ("error", .vStr "scrapedData is required")] 400, w.store) ∨
    lambda_handler body w =
      (create_response [("success", .vBool false), ("error", .vStr "Invalid website URL format")] 400, w.store) ∨
    lambda_handler body w =
      (create_response [("success", .vBool false), ("error", .vStr "Invalid scraped data structure")] 400, w.store) ∨
    lambda_handler body w = (create_response internalErrorPayload 500, w.store) ∨
    (check_duplicate_project (dictGetD body "userId" (.vStr "default_user"))
        (dictGetD body "websiteUrl" .vNull) w.store w.queryFails = true ∧
      lambda_handler body w =
        (create_response [("success", .vBool false), ("error", .vStr "Project already exists for this URL")] 409, w.store)) ∨
    (∃ item store2,
      create_project (dictGetD body "userId" (.vStr "default_user")) (dictGetD body "websiteUrl" .vNull)
        (dictGetD body "category" (.vStr "General")) (dictGetD body "description" (.vStr ""))
        (dictGetD body "scrapedData" .vNull) w.dt w.seed w.store w.putFails = .ok (item, store2) ∧
      lambda_handler body w =
        (create_response [("success", .vBool true), ("data", .vDict (projectToDict item)),
          ("message", .vStr "Project created successfully")] 201, store2)) := by
  by_cases c1 : truthy (dictGetD body "websiteUrl" .vNull) = true
  case neg =>
    simp only [Bool.not_eq_true] at c1
    exact Or.inl (by simp [lambda_handler, c1])
  by_cases c2 : truthy (dictGetD body "scrapedData" .vNull) = true
  case neg =>
    simp only [Bool.not_eq_true] at c2
    exact Or.inr (Or.inl (by simp [lambda_handler, c1, c2]))
  by_cases c3 : validate_url_v (dictGetD body "websiteUrl" .vNull) = true
  case neg =>
    simp only [Bool.not_eq_true] at c3
    exact Or.inr (Or.inr (Or.inl (by simp [lambda_handler, c1, c2, c3])))
  rcases hv : validate_scraped_data_v (dictGetD body "scrapedData" .vNull) with u | sb
  · exact Or.inr (Or.inr (Or.inr (Or.inr (Or.inl (by simp [lambda_handler, c1, c2, c3, hv])))))
  rcases sb with _ | _
  · exact Or.inr (Or.inr (Or.inr (Or.inl (by simp [lambda_handler, c1, c2, c3, hv]))))
  by_cases c6 : check_duplicate_project (dictGetD body "userId" (.vStr "default_user"))
      (dictGetD body "websiteUrl" .vNull) w.store w.queryFails = true
  · exact Or.inr (Or.inr (Or.inr (Or.inr (Or.inr (Or.inl
      ⟨c6, by simp [lambda_handler, c1, c2, c3, hv, c6]⟩)))))
  simp only [Bool.not_eq_true] at c6
  rcases hc : create_project (dictGetD body "userId" (.vStr "default_user")) (dictGetD body "websiteUrl" .vNull)
      (dictGetD body "category" (.vStr "General")) (dictGetD body "description" (.vStr ""))
      (dictGetD body "scrapedData" .vNull) w.dt w.seed w.store w.putFails with u | pr
  · exact Or.inr (Or.inr (Or.inr (Or.inr (Or.inl (by simp [lambda_handler, c1, c2, c3, hv, c6, hc])))))
  · obtain ⟨item, store2⟩ := pr
    exact Or.inr (Or.inr (Or.inr (Or.inr (Or.inr (Or.inr
      ⟨item, store2, rfl, by simp [lambda_handler, c1, c2, c3, hv, c6, hc]⟩)))))

/-- A fixed sample clock used by the concrete witnesses. -/
def dt0 : PyDateTime := ⟨2025, 1, 2, 3, 4, 5, 6⟩

/-- An empty, fault-free world used by the concrete witnesses. -/
def wEmpty : World := ⟨[], false, false, dt0, 0⟩

/-- A world whose duplicate-check query raises. -/
def wQueryFail : World := ⟨[], true, false, dt0, 0⟩

/-- A stored project for `(default_user, https://a.com)`. -/
def dupStoreItem : ProjectItem :=
  ⟨.vStr "default_user", "project_0", .vStr "https://a.com", .vStr "General", .vStr "",
   .vStr "T", 0, "t", "active", "t", "t", .vNull⟩

/-- A world whose store already holds `dupStoreItem`. -/
def wDup : World := ⟨[dupStoreItem], false, false, dt0, 0⟩

/-- A request for `https://a.com` whose scraped data is truthy but fails the
shape check. -/
def c3Body : List (String × Value) :=
  [("websiteUrl", .vStr "https://a.com"), ("scrapedData", .vDict [("url", .vStr "u")])]

/-- Claim C3 counterexample: for this request the duplicate check on the
request user and URL returns true (the store holds a matching record), yet
the handler returns 400 (invalid scraped-data shape), not 409, because shape
validation runs before the duplicate check. -/
theorem duplicate_conflict_cex :
    check_duplicate_project (dictGetD c3Body "userId" (.vStr "default_user"))
      (dictGetD c3Body "websiteUrl" .vNull) wDup.store wDup.queryFails = true ∧
    (lambda_handler c3Body wDup).1.statusCode = 400 ∧
    ¬ (lambda_handler c3Body wDup).1.statusCode = 409 := by
  refine ⟨rfl, rfl, ?_⟩
  intro h
  have h400 : (lambda_handler c3Body wDup).1.statusCode = 400 := rfl
  rw [h400] at h
  simp at h

/-- Claim C3 (amended): for every request that passes the presence, URL and
shape validations, if the duplicate check on the request user and URL
returns true then the handler returns 409 with success false and exactly
the error "Project already exists for this URL", and performs no insert:
the store is returned unchanged. -/
theorem duplicate_conflict (body : List (String × Value)) (w : World)
    (h1 : truthy (dictGetD body "websiteUrl" .vNull) = true)
    (h2 : truthy (dictGetD body "scrapedData" .vNull) = true)
    (h3 : validate_url_v (dictGetD body "websiteUrl" .vNull) = true)
    (h4 : validate_scraped_data_v (dictGetD body "scrapedData" .vNull) = .ok true)
    (h5 : check_duplicate_project (dictGetD body "userId" (.vStr "default_user"))
      (dictGetD body "websiteUrl" .vNull) w.store w.queryFails = true) :
    lambda_handler body w =
      (create_response [("success", .vBool false),
        ("error", .vStr "Project already exists for this URL")] 409, w.store) := by
  simp [lambda_handler, h1, h2, h3, h4, h5]

/-- A fully valid request for `https://a.com`. -/
def createBody : List (String × Value) :=
  [("websiteUrl", .vStr "https://a.com"),
   ("scrapedData", .vDict [("url", .vStr "https://a.com"), ("title", .vStr "T"),
     ("content", .vStr "c")])]

/-- Witness for C3: a valid request against a store already holding the
pair gets the 409 response and leaves the store unchanged. -/
theorem duplicate_conflict_witness :
    lambda_handler createBody wDup =
      (create_response [("success", .vBool false),
        ("error", .vStr "Project already exists for this URL")] 409, wDup.store) :=
  duplicate_conflict createBody wDup rfl rfl rfl rfl rfl

/-- Claim C4: any storage error during the duplicate check is swallowed:
`check_duplicate_project` returns false (no duplicate found) instead of
propagating, and a handler invocation whose query raises never produces a
409 from this step. -/
theorem duplicate_check_fail_open :
    (∀ (user_id website_url : Value) (store : List ProjectItem),
      check_duplicate_project user_id website_url store true = false) ∧
    (∀ (body : List (String × Value)) (w : World), w.queryFails = true →
      ¬ (lambda_handler body w).1.statusCode = 409) := by
  constructor
  · intro u v s
    rfl
  · intro body w hq h409
    rcases lambda_handler_spec body w with h|h|h|h|h|⟨hdup, h⟩|⟨item, store2, hc, h⟩
    · rw [h] at h409; simp [create_response] at h409
    · rw [h] at h409; simp [create_response] at h409
    · rw [h] at h409; simp [create_response] at h409
    · rw [h] at h409; simp [create_response] at h409
    · rw [h] at h409; simp [create_response] at h409
    · rw [hq] at hdup; simp [check_duplicate_project] at hdup
    · rw [h] at h409; simp [create_response] at h409

/-- Witness for C4: with a raising query, the duplicate check reports false
and a concrete invocation does not return 409. -/
theorem duplicate_check_fail_open_witness :
    check_duplicate_project (.vStr "u") (.vStr "https://a.com") [] true = false ∧
    ¬ (lambda_handler createBody wQueryFail).1.statusCode = 409 :=
  ⟨duplicate_check_fail_open.1 (.vStr "u") (.vStr "https://a.com") [],
   duplicate_check_fail_open.2 createBody wQueryFail rfl⟩

/-- Claim C10: a `websiteUrl` or `scrapedData` that is present but falsy is
treated as missing: the handler returns the corresponding required-field
400 response (presence of the key with a falsy value, no URL or shape
validation involved) and the store is unchanged. -/
theorem falsy_required_fields (body : List (String × Value)) (w : World) :
    (∀ v, dictFind? body "websiteUrl" = some v → truthy v = false →
      lambda_handler body w =
        (create_response [("success", .vBool false),
          ("error", .vStr "websiteUrl is required")] 400, w.store)) ∧
    (∀ v, truthy (dictGetD body "websiteUrl" .vNull) = true →
      dictFind? body "scrapedData" = some v → truthy v = false →
      lambda_handler body w =
        (create_response [("success", .vBool false),
          ("error", .vStr "scrapedData is required")] 400, w.store)) := by
  constructor
  · intro v hfind htr
    have hv : dictGetD body "websiteUrl" .vNull = v := by simp [dictGetD, hfind]
    simp [lambda_handler, hv, htr]
  · intro v h1 hfind htr
    have hv : dictGetD body "scrapedData" .vNull = v := by simp [dictGetD, hfind]
    simp [lambda_handler, hv, htr, h1]

/-- Witness for C10: an empty-string websiteUrl and an empty-dict
scrapedData each produce the corresponding required-field error. -/
theorem falsy_required_fields_witness :
    lambda_handler [("websiteUrl", Value.vStr "")] wEmpty =
      (create_response [("success", .vBool false),
        ("error", .vStr "websiteUrl is required")] 400, wEmpty.store) ∧
    lambda_handler [("websiteUrl", Value.vStr "https://a.com"), ("scrapedData", Value.vDict [])] wEmpty =
      (create_response [("success", .vBool false),
        ("error", .vStr "scrapedData is required")] 400, wEmpty.store) :=
  ⟨(falsy_required_fields [("websiteUrl", Value.vStr "")] wEmpty).1 (Value.vStr "") rfl rfl,
   (falsy_required_fields [("websiteUrl", Value.vStr "https://a.com"),
      ("scrapedData", Value.vDict [])] wEmpty).2 (Value.vDict []) rfl rfl rfl⟩

/-- The scraped-data record used by the create-side witnesses. -/
def sampleScraped : List (String × Value) :=
  [("url", .vStr "u"), ("title", .vStr "T"), ("content", .vStr "c")]

/-- The project record produced by `create_project` at the witness inputs
(seed 0, clock `dt0`). -/
def sampleItem : ProjectItem :=
  ⟨.vStr "u", "project_000000000000", .vStr "https://a.com", .vStr "General", .vStr "",
   .vStr "T", 15, "2025-01-02T03:04:05.000006Z", "active",
   "2025-01-02T03:04:05.000006Z", "2025-01-02T03:04:05.000006Z", .vDict sampleScraped⟩

/-- Claim C5 counterexample: a supplied-but-empty `title` is stored as the
empty string; it is not replaced by the website URL, contradicting the
"including when the supplied title is empty" part of the claim. -/
theorem title_fallback_cex :
    (create_project (.vStr "u1") (.vStr "https://a.com") (.vStr "General") (.vStr "")
        (.vDict [("url", .vStr "u"), ("title", .vStr ""), ("content", .vStr "c")])
        dt0 0 [] false).map (fun r => r.1.title) = .ok (.vStr "") ∧
    ¬ (Value.vStr "" = Value.vStr "https://a.com") := by
  refine ⟨rfl, ?_⟩
  intro h
  simp at h

/-- Claim C5 (amended): on every successful create from a scraped-data
dict, the stored title equals the value of the scraped `title` key whenever
that key is present (even when its value is empty or falsy); it falls back
to the website URL exactly when the key is absent. -/
theorem title_fallback {user_id wu cat desc : Value} {fs : List (String × Value)}
    {dt : PyDateTime} {seed : Nat} {store : List ProjectItem} {pf : Bool}
    {item : ProjectItem} {store2 : List ProjectItem}
    (h : create_project user_id wu cat desc (.vDict fs) dt seed store pf = .ok (item, store2)) :
    (∀ t, dictFind? fs "title" = some t → item.title = t) ∧
    (dictFind? fs "title" = none → item.title = wu) := by
  obtain ⟨-, -, -, -, -, -, ⟨tt, htt, hit⟩, -⟩ := create_project_ok_inv h
  have htv : tt = dictGetD fs "title" wu := by
    simp only [vGetD, Except.ok.injEq] at htt
    exact htt.symm
  constructor
  · intro t hf
    rw [hit, htv]
    simp [dictGetD, hf]
  · intro hf
    rw [hit, htv]
    simp [dictGetD, hf]

/-- Witness for C5: with the title key present and equal to "T", the stored
title is "T". -/
theorem title_fallback_witness : sampleItem.title = .vStr "T" :=
  (title_fallback (show create_project (.vStr "u") (.vStr "https://a.com") (.vStr "General")
      (.vStr "") (.vDict sampleScraped) dt0 0 [] false = .ok (sampleItem, [sampleItem])
    from rfl)).1 (.vStr "T") rfl

/-- Claim C9: on every freshly created project the fields `created_at`,
`updated_at` and `last_checked` are identical strings, and each is an
ISO-8601 UTC timestamp (`YYYY-MM-DDTHH:MM:SS` with optional `.ffffff`)
ending in the suffix `Z`. -/
theorem timestamps_identical {u wu cat desc sdv : Value} {dt : PyDateTime}
    {seed : Nat} {store : List ProjectItem} {pf : Bool}
    {item : ProjectItem} {store2 : List ProjectItem}
    (h : create_project u wu cat desc sdv dt seed store pf = .ok (item, store2)) :
    item.created_at = item.updated_at ∧ item.created_at = item.last_checked ∧
    checkIsoZ item.created_at = true ∧ item.created_at.data.getLast? = some 'Z' := by
  obtain ⟨-, hca, hua, hlc, -⟩ := create_project_ok_inv h
  rw [hca, hua, hlc]
  exact ⟨rfl, rfl, utcnowIsoZ_checkIsoZ dt, utcnowIsoZ_endsZ dt⟩

/-- Witness for C9 at the concrete create. -/
theorem timestamps_identical_witness :
    sampleItem.created_at = sampleItem.updated_at ∧
    sampleItem.created_at = sampleItem.last_checked ∧
    checkIsoZ sampleItem.created_at = true ∧
    sampleItem.created_at.data.getLast? = some 'Z' :=
  timestamps_identical (show create_project (.vStr "u") (.vStr "https://a.com") (.vStr "General")
      (.vStr "") (.vDict sampleScraped) dt0 0 [] false = .ok (sampleItem, [sampleItem])
    from rfl)

/-- A request whose websiteUrl is present but empty and whose scraped data
is complete. -/
def c6Body : List (String × Value) :=
  [("websiteUrl", .vStr ""), ("scrapedData", .vDict sampleScraped)]

/-- Claim C6 counterexample: the empty string fails `validate_url`, yet the
handler answers with the presence error "websiteUrl is required", not the
exact string "Invalid website URL format", because the falsy-field check
runs first. -/
theorem url_validation_cex :
    validate_url "" = false ∧
    (lambda_handler c6Body wEmpty).1.payload =
      [("success", .vBool false), ("error", .vStr "websiteUrl is required")] ∧
    ¬ (lambda_handler c6Body wEmpty).1.payload =
      [("success", .vBool false), ("error", .vStr "Invalid website URL format")] := by
  refine ⟨rfl, rfl, ?_⟩
  intro h
  have hp : (lambda_handler c6Body wEmpty).1.payload =
      [("success", .vBool false), ("error", .vStr "websiteUrl is required")] := rfl
  rw [hp] at h
  simp at h

/-- Claim C6 (amended): `validate_url` returns true iff its input parses
(without raising) into a URL with a non-empty scheme and a non-empty
netloc, and never raises on malformed input; and every request whose
`websiteUrl` and `scrapedData` are present and truthy but whose
`websiteUrl` fails the check gets exactly the 400 response
"Invalid website URL format" with the store unchanged. -/
theorem url_validation :
    (∀ s : String, validate_url s = true ↔
      ∃ sch nl, urlparseSN s = .ok (sch, nl) ∧ sch ≠ [] ∧ nl ≠ []) ∧
    (∀ (body : List (String × Value)) (w : World),
      truthy (dictGetD body "websiteUrl" .vNull) = true →
      truthy (dictGetD body "scrapedData" .vNull) = true →
      validate_url_v (dictGetD body "websiteUrl" .vNull) = false →
      lambda_handler body w =
        (create_response [("success", .vBool false),
          ("error", .vStr "Invalid website URL format")] 400, w.store)) := by
  constructor
  · intro s
    unfold validate_url
    rcases h : urlparseSN s with u | p
    · simp
    · obtain ⟨sch, nl⟩ := p
      simp only [List.isEmpty_iff, Except.ok.injEq, Prod.mk.injEq, Bool.and_eq_true,
        Bool.not_eq_true', List.isEmpty_eq_false]
      constructor
      · rintro ⟨a, b⟩
        exact ⟨sch, nl, ⟨rfl, rfl⟩, a, b⟩
      · rintro ⟨s1, n1, ⟨rfl, rfl⟩, a, b⟩
        exact ⟨a, b⟩
  · intro body w h1 h2 h3
    simp [lambda_handler, h1, h2, h3]

/-- A request with a truthy but malformed websiteUrl. -/
def c6wBody : List (String × Value) :=
  [("websiteUrl", .vStr "notaurl"), ("scrapedData", .vDict sampleScraped)]

/-- Witness for C6: a well-formed URL satisfies the contract and a
malformed one draws the format error. -/
theorem url_validation_witness :
    validate_url "https://example.com" = true ∧
    lambda_handler c6wBody wEmpty =
      (create_response [("success", .vBool false),
        ("error", .vStr "Invalid website URL format")] 400, wEmpty.store) :=
  ⟨(url_validation.1 "https://example.com").mpr
      ⟨"https".data, "example.com".data, rfl, by decide, by decide⟩,
   url_validation.2 c6wBody wEmpty rfl rfl rfl⟩

/-- A request whose scrapedData is present but the empty dict. -/
def c7Body : List (String × Value) :=
  [("websiteUrl", .vStr "https://a.com"), ("scrapedData", .vDict [])]

/-- Claim C7 counterexample: the empty dict fails the shape check, yet the
handler answers with the presence error "scrapedData is required", not the
exact string "Invalid scraped data structure", because the falsy-field
check runs first. -/
theorem scraped_shape_cex :
    validate_scraped_data [] = false ∧
    (lambda_handler c7Body wEmpty).1.payload =
      [("success", .vBool false), ("error", .vStr "scrapedData is required")] ∧
    ¬ (lambda_handler c7Body wEmpty).1.payload =
      [("success", .vBool false), ("error", .vStr "Invalid scraped data structure")] := by
  refine ⟨rfl, rfl, ?_⟩
  intro h
  have hp : (lambda_handler c7Body wEmpty).1.payload =
      [("success", .vBool false), ("error", .vStr "scrapedData is required")] := rfl
  rw [hp] at h
  simp at h

/-- Claim C7 (amended): `validate_scraped_data` returns true iff the keys
`url`, `title` and `content` are all present, whatever their values; and
every request whose `websiteUrl` is truthy and valid and whose
`scrapedData` is truthy but evaluates to false under the check gets exactly
the 400 response "Invalid scraped data structure" with the store
unchanged. -/
theorem scraped_shape_validation :
    (∀ fs : List (String × Value), validate_scraped_data fs = true ↔
      (dictHasKey fs "url" = true ∧ dictHasKey fs "title" = true ∧
        dictHasKey fs "content" = true)) ∧
    (∀ (body : List (String × Value)) (w : World),
      truthy (dictGetD body "websiteUrl" .vNull) = true →
      truthy (dictGetD body "scrapedData" .vNull) = true →
      validate_url_v (dictGetD body "websiteUrl" .vNull) = true →
      validate_scraped_data_v (dictGetD body "scrapedData" .vNull) = .ok false →
      lambda_handler body w =
        (create_response [("success", .vBool false),
          ("error", .vStr "Invalid scraped data structure")] 400, w.store)) := by
  constructor
  · intro fs
    simp [validate_scraped_data, required_fields, List.all]
  · intro body w h1 h2 h3 h4
    simp [lambda_handler, h1, h2, h3, h4]

/-- A request whose scraped data is a non-empty dict missing `title` and
`content`. -/
def c7wBody : List (String × Value) :=
  [("websiteUrl", .vStr "https://a.com"), ("scrapedData", .vDict [("url", .vStr "u")])]

/-- Witness for C7: a complete record passes the shape check and an
incomplete truthy one draws the structure error. -/
theorem scraped_shape_validation_witness :
    validate_scraped_data sampleScraped = true ∧
    lambda_handler c7wBody wEmpty =
      (create_response [("success", .vBool false),
        ("error", .vStr "Invalid scraped data structure")] 400, wEmpty.store) :=
  ⟨(scraped_shape_validation.1 sampleScraped).mpr ⟨rfl, rfl, rfl⟩,
   scraped_shape_validation.2 c7wBody wEmpty rfl rfl rfl rfl⟩

theorem all_take {α : Type} (p : α → Bool) (l : List α) (n : Nat)
    (h : l.all p = true) : (l.take n).all p = true := by
  simp only [List.all_eq_true] at h ⊢
  intro x hx
  exact h x (List.take_subset _ _ hx)

/-- Claim C8: every 201 response has success true, the message
"Project created successfully", and a `data.project_id` that is exactly
"project_" followed by 12 lowercase hexadecimal characters. -/
theorem created_response (body : List (String × Value)) (w : World)
    (h : (lambda_handler body w).1.statusCode = 201) :
    ∃ t : List Char,
      dictFind? (lambda_handler body w).1.payload "success" = some (.vBool true) ∧
      dictFind? (lambda_handler body w).1.payload "message" =
        some (.vStr "Project created successfully") ∧
      (∃ pd, dictFind? (lambda_handler body w).1.payload "data" = some (.vDict pd) ∧
        dictFind? pd "project_id" = some (.vStr (String.mk ("project_".data ++ t)))) ∧
      t.length = 12 ∧ t.all isLowerHex = true := by
  rcases lambda_handler_spec body w with hh|hh|hh|hh|hh|⟨hdup, hh⟩|⟨item, store2, hc, hh⟩
  · rw [hh] at h; simp [create_response] at h
  · rw [hh] at h; simp [create_response] at h
  · rw [hh] at h; simp [create_response] at h
  · rw [hh] at h; simp [create_response] at h
  · rw [hh] at h; simp [create_response] at h
  · rw [hh] at h; simp [create_response] at h
  · refine ⟨(uuid4hex w.seed 32).take 12, ?_, ?_, ?_, ?_, ?_⟩
    · rw [hh]; rfl
    · rw [hh]; rfl
    · refine ⟨projectToDict item, ?_, ?_⟩
      · rw [hh]; rfl
      · have hpid := (create_project_ok_inv hc).1
        have hfind : dictFind? (projectToDict item) "project_id" =
            some (.vStr item.project_id) := rfl
        rw [hfind, hpid]
        rfl
    · rw [List.length_take, uuid4hex_length]
      rfl
    · exact all_take _ _ _ (uuid4hex_isLowerHex w.seed 32)

/-- Witness for C8 at a concrete successful create. -/
theorem created_response_witness :
    (lambda_handler createBody wEmpty).1.statusCode = 201 ∧
    (∃ t : List Char,
      dictFind? (lambda_handler createBody wEmpty).1.payload "success" = some (.vBool true) ∧
      dictFind? (lambda_handler createBody wEmpty).1.payload "message" =
        some (.vStr "Project created successfully") ∧
      (∃ pd, dictFind? (lambda_handler createBody wEmpty).1.payload "data" = some (.vDict pd) ∧
        dictFind? pd "project_id" = some (.vStr (String.mk ("project_".data ++ t)))) ∧
      t.length = 12 ∧ t.all isLowerHex = true) :=
  ⟨rfl, created_response createBody wEmpty rfl⟩
